import Mathlib

/-!
Verification of the narrative_knowledge repository against its
natural-language specification.

Each namespace shallowly embeds one component of the source tree:

* `Engine`  — `src/graph_optimization_engine.py` (detection gating).
* `Opt`     — `src/opt/optimizer.py` (redundancy-entity merge).
* `Upload`  — `src/api/knowledge.py` (batch upload endpoint, file saving).
* `Ingest`  — `src/knowledge_graph/knowledge.py` (`extract_knowledge`).
* `Blocks`  — `src/knowledge_graph/knowledge.py` (`split_knowledge_blocks`).
* `GraphBuild` — `src/knowledge_graph/graph.py` (retry loop, triplet
  materialization control flow, idempotency guard).
* `Daemon`  — `src/knowledge_graph/graph_builder_daemon.py`.
* `Critic`  — `src/opt/evaluator.py` (`evaluate_issue`).

Machine integers do not occur (Python integers are unbounded); scores use `ℚ`.
LLM calls, embeddings and the SHA-256 digest are modelled as oracles passed in
as explicit function parameters, mirroring the call sites in the source.
-/

/-- Split a character list at every occurrence of the separator (the
character-level counterpart of Python `str.split(sep)`); always returns at
least one part. -/
def splitOnChar (c : Char) : List Char → List (List Char)
  | [] => [[]]
  | x :: xs =>
    match splitOnChar c xs with
    | [] => if x = c then [[], []] else [[x]]
    | h :: t => if x = c then [] :: h :: t else (x :: h) :: t

/-- ASCII lower-casing of one character (Python `str.lower()` on the
filenames this system handles). -/
def charToLower (c : Char) : Char :=
  if 'A' ≤ c ∧ c ≤ 'Z' then Char.ofNat (c.toNat + 32) else c

/-- Join character lists with a separator (Python `sep.join(parts)`). -/
def joinWithChar (c : Char) : List (List Char) → List Char
  | [] => []
  | [x] => x
  | x :: xs => x ++ c :: joinWithChar c xs

/-- `Path(p).suffix.lower()` as used by `_validate_file` and
`_get_content_type_from_path`: the final extension of the last path
component, lower-cased, with the leading dot. -/
def pathSuffix (filename : String) : String :=
  let base := (splitOnChar '/' filename.data).getLastD []
  let parts := splitOnChar '.' base
  if parts.length ≤ 1 then ""
  else String.mk ('.' :: (parts.getLastD []).map charToLower)

/-- `Path(p).stem`: the last path component without its final extension. -/
def pathStem (p : String) : String :=
  let base := (splitOnChar '/' p.data).getLastD []
  let parts := splitOnChar '.' base
  if parts.length ≤ 1 then String.mk base
  else String.mk (joinWithChar '.' parts.dropLast)

/-- Whether `pattern` occurs at the head of `text`. -/
def leadMatch : List Char → List Char → Bool
  | [], _ => true
  | _ :: _, [] => false
  | p :: ps, t :: ts => p = t && leadMatch ps ts

/-- Whether `pattern` occurs anywhere in `text` (Python `pattern in text`). -/
def hasSub (pattern : List Char) : List Char → Bool
  | [] => leadMatch pattern []
  | t :: ts => leadMatch pattern (t :: ts) || hasSub pattern ts

namespace Engine

/-- Optimizer issue state as read by `GraphOptimizationEngine`
(`validation_score`, `is_resolved`, `critic_evaluations`). -/
structure Issue where
  issueType : String
  validationScore : ℚ
  isResolved : Bool
  criticEvaluationsCount : ℕ
deriving Repr, DecidableEq

/-- The `unresolved_high_confidence` list comprehension of
`GraphOptimizationEngine._should_detect_new_issues`. -/
def unresolvedHighConfidence (confidenceThreshold : ℚ) (issues : List Issue) :
    List Issue :=
  issues.filter fun i =>
    !i.isResolved && decide (confidenceThreshold ≤ i.validationScore)

/-- The `all_evaluated` check of `_should_detect_new_issues`:
`all(len(issue.critic_evaluations) > 0 for issue in issues)`. -/
def allEvaluated (issues : List Issue) : Bool :=
  issues.all fun i => decide (0 < i.criticEvaluationsCount)

/-- `GraphOptimizationEngine._should_detect_new_issues`
(`src/graph_optimization_engine.py:513`). -/
def shouldDetectNewIssues (confidenceThreshold : ℚ) (issues : List Issue) :
    Bool :=
  if issues.length = 0 then true
  else
    decide ((unresolvedHighConfidence confidenceThreshold issues).length = 0) &&
      allEvaluated issues

/-- Stage 1 of `GraphOptimizationEngine.optimize_graph`
(`src/graph_optimization_engine.py:479`): the detection run happens exactly
when `_should_detect_new_issues` returns true; the boolean records whether
detection was performed. -/
def optimizeGraphStage1 (confidenceThreshold : ℚ)
    (issues newIssues : List Issue) : List Issue × Bool :=
  if shouldDetectNewIssues confidenceThreshold issues then
    (issues ++ newIssues, true)
  else (issues, false)

end Engine

namespace Opt

/-- Tenant-store `Entity` row (fields used by the merge path). -/
structure Entity where
  id : ℕ
  name : String
  description : String
deriving Repr, DecidableEq

/-- Tenant-store `Relationship` row. -/
structure Relationship where
  id : ℕ
  sourceEntityId : ℕ
  targetEntityId : ℕ
  relationshipDesc : String
deriving Repr, DecidableEq

/-- Tenant-store `SourceGraphMapping` row. -/
structure SourceGraphMapping where
  sourceId : String
  graphElementId : ℕ
  graphElementType : String
deriving Repr, DecidableEq

/-- The graph tables touched by `process_redundancy_entity_issue`. -/
structure GraphDB where
  entities : List Entity
  relationships : List Relationship
  mappings : List SourceGraphMapping
deriving Repr, DecidableEq

/-- The validated LLM merge payload (`merge_entity` returns a dict with
`name`, `description`, `attributes`; `none` models both a parse failure and a
payload missing required keys). -/
structure MergedEntity where
  name : String
  description : String
deriving Repr, DecidableEq

/-- The two relationship bulk updates of `process_redundancy_entity_issue`
(`src/opt/optimizer.py:405` and `:412`) applied to one row: repoint
`source_entity_id` and then `target_entity_id` from an original id to the
merged id. -/
def relUpdate (originalIds : List ℕ) (mergedEntityId : ℕ)
    (r : Relationship) : Relationship :=
  let r1 :=
    if originalIds.contains r.sourceEntityId then
      { r with sourceEntityId := mergedEntityId }
    else r
  if originalIds.contains r1.targetEntityId then
    { r1 with targetEntityId := mergedEntityId }
  else r1

/-- The `SourceGraphMapping` bulk update of `process_redundancy_entity_issue`
(`src/opt/optimizer.py:418`) applied to one row: rows of type `entity` whose
`graph_element_id` is an original id are repointed at the merged id. -/
def mapUpdate (originalIds : List ℕ) (mergedEntityId : ℕ)
    (mp : SourceGraphMapping) : SourceGraphMapping :=
  if originalIds.contains mp.graphElementId &&
      mp.graphElementType == "entity" then
    { mp with graphElementId := mergedEntityId }
  else mp

/-- `process_redundancy_entity_issue` (`src/opt/optimizer.py:357`): look up
the affected entities; if none, fail; if the LLM merge payload is invalid,
fail; otherwise insert the merged entity (its freshly flushed id is
`mergedEntityId`), bulk-update `Relationship.source_entity_id` and
`target_entity_id` from the original ids to the merged id, bulk-update
`SourceGraphMapping.graph_element_id` for rows of type `entity`, delete the
original entities, and commit. Returns the committed store and the success
flag. -/
def processRedundancyEntityIssue (db : GraphDB) (affectedIds : List ℕ)
    (mergedResult : Option MergedEntity) (mergedEntityId : ℕ) :
    GraphDB × Bool :=
  let found := db.entities.filter fun e => affectedIds.contains e.id
  if found.isEmpty then (db, false)
  else
    match mergedResult with
    | none => (db, false)
    | some m =>
      let originalIds := found.map (·.id)
      let newEntity : Entity :=
        { id := mergedEntityId, name := m.name, description := m.description }
      let rels := db.relationships.map (relUpdate originalIds mergedEntityId)
      let maps := db.mappings.map (mapUpdate originalIds mergedEntityId)
      let ents :=
        (db.entities ++ [newEntity]).filter fun e =>
          !originalIds.contains e.id
      ({ entities := ents, relationships := rels, mappings := maps }, true)

/-- The set of entity ids deleted by a successful merge: the ids of the
affected entities actually found in the store. -/
def deletedOriginalIds (db : GraphDB) (affectedIds : List ℕ) : List ℕ :=
  (db.entities.filter fun e => affectedIds.contains e.id).map (·.id)

end Opt

namespace Upload

/-- `ALLOWED_EXTENSIONS` (`src/api/knowledge.py:32`). -/
def ALLOWED_EXTENSIONS : List String := [".pdf", ".md", ".txt", ".sql"]

/-- `MAX_FILE_SIZE` (`src/api/knowledge.py:33`). -/
def MAX_FILE_SIZE : ℕ := 10 * 1024 * 1024

/-- An HTTP error raised via `HTTPException(status_code, detail)`. -/
structure HTTPExc where
  statusCode : ℕ
  detail : String
deriving Repr, DecidableEq

/-- Outcome of the save-and-process chain for one file once validation has
passed: `_save_uploaded_file` may raise an `HTTPException` (modelled
`httpExc`), `_process_document` may raise an ordinary exception (modelled
`procError` with the exception text), or the document is processed
(`processed` with the resulting document id). -/
inductive FileOutcome where
  | httpExc (e : HTTPExc)
  | procError (reason : String)
  | processed (docId : String)
deriving Repr, DecidableEq

/-- One entry of the `files[]` multipart field together with the behaviour of
its save/process chain. -/
structure UploadFile where
  filename : String
  size : ℕ
  outcome : FileOutcome
deriving Repr, DecidableEq

/-- `_validate_file` (`src/api/knowledge.py:41`): reject a missing filename,
an extension outside `ALLOWED_EXTENSIONS` (HTTP 400) and a size above
`MAX_FILE_SIZE` (HTTP 413); `none` means validation passed. -/
def validateFile (f : UploadFile) : Option HTTPExc :=
  if f.filename = "" then some ⟨400, "File must have a filename"⟩
  else if !ALLOWED_EXTENSIONS.contains (pathSuffix f.filename) then
    some ⟨400, "File type not supported"⟩
  else if MAX_FILE_SIZE < f.size then
    some ⟨413, "File size exceeds 10MB limit"⟩
  else none

/-- Successful response payload of the upload endpoint (HTTP 200). -/
structure UploadResponse where
  uploadedCount : ℕ
  totalCount : ℕ
  documents : List String
  failed : List (String × String × String)
deriving Repr, DecidableEq

/-- The per-file loop of `upload_documents` (`src/api/knowledge.py:279`):
validation failures and `HTTPException`s from the save/process chain are
re-raised and abort the whole request; other processing errors are appended
to `failed_uploads` and the loop continues. -/
def processFilesLoop :
    List (UploadFile × String) → List String →
      List (String × String × String) →
      Except HTTPExc (List String × List (String × String × String))
  | [], processedDocs, failedUploads =>
    .ok (processedDocs.reverse, failedUploads.reverse)
  | (f, link) :: rest, processedDocs, failedUploads =>
    match validateFile f with
    | some e => .error e
    | none =>
      match f.outcome with
      | .httpExc e => .error e
      | .procError reason =>
        processFilesLoop rest processedDocs
          ((f.filename, link, reason) :: failedUploads)
      | .processed docId =>
        processFilesLoop rest (docId :: processedDocs) failedUploads

/-- `len(links) != len(set(links))` (`src/api/knowledge.py:256`): the batch
contains a link more than once. -/
def hasDuplicate : List String → Bool
  | [] => false
  | x :: xs => xs.contains x || hasDuplicate xs

/-- `upload_documents` (`src/api/knowledge.py:204`): batch pre-checks (no
files, no links, length mismatch, duplicate links, invalid database URI when
one is supplied — `dbCheck = some false`), then the per-file loop, then the
all-failed check (HTTP 400) and the HTTP 200 response. -/
def uploadDocuments (files : List UploadFile) (links : List String)
    (dbCheck : Option Bool) : Except HTTPExc UploadResponse :=
  if files.isEmpty then .error ⟨400, "No files provided"⟩
  else if links.isEmpty then .error ⟨400, "No links provided"⟩
  else if files.length ≠ links.length then
    .error ⟨400, "Number of files must match number of links"⟩
  else if hasDuplicate links then
    .error ⟨400, "All links must be unique"⟩
  else if dbCheck = some false then
    .error ⟨400, "Invalid database connection string"⟩
  else
    match processFilesLoop (files.zip links) [] [] with
    | .error e => .error e
    | .ok (processedDocs, failedUploads) =>
      if processedDocs.isEmpty && !failedUploads.isEmpty then
        .error ⟨400, "All files failed to process"⟩
      else
        .ok { uploadedCount := processedDocs.length,
              totalCount := files.length,
              documents := processedDocs,
              failed := failedUploads }

/-- The saved-uploads corner of the filesystem: the set of directories that
exist and the files written, newest first. Paths are component lists. -/
structure FileSystem where
  dirs : List (List String)
  files : List (List String × String)
deriving Repr, DecidableEq

/-- `UPLOAD_DIR` (`src/api/knowledge.py:31`). -/
def UPLOAD_DIR : List String := ["uploads"]

/-- `_save_uploaded_file` (`src/api/knowledge.py:75`): if
`UPLOAD_DIR/<topic_name>/<filename>` already exists, return the path of the
previously stored file without writing; otherwise create the directory and
write the uploaded bytes at `<dir>/<filename>`. -/
def saveUploadedFile (fs : FileSystem) (topicName filename content : String) :
    List String × FileSystem :=
  let fileDir := UPLOAD_DIR ++ [topicName, filename]
  if fs.dirs.contains fileDir then (fileDir ++ [filename], fs)
  else
    let filePath := fileDir ++ [filename]
    (filePath,
     { dirs := fileDir :: fs.dirs, files := (filePath, content) :: fs.files })

/-- Read a file back from the modelled filesystem (most recent write wins). -/
def readFile (fs : FileSystem) (p : List String) : Option String :=
  (fs.files.find? fun q => q.1 = p).map (·.2)

/-- The documents the loop would report as processed: one entry per file
whose chain ends in `processed`. -/
def processedDocsOf (pairs : List (UploadFile × String)) : List String :=
  pairs.filterMap fun p =>
    match p.1.outcome with
    | .processed d => some d
    | _ => none

/-- The `failed_uploads` entries the loop would report: one
`(file, link, reason)` triple per file whose chain ends in `procError`. -/
def failedUploadsOf (pairs : List (UploadFile × String)) :
    List (String × String × String) :=
  pairs.filterMap fun p =>
    match p.1.outcome with
    | .procError r => some (p.1.filename, p.2, r)
    | _ => none

end Upload

namespace Ingest

/-- `SourceData` row (fields read and written by `extract_knowledge`). -/
structure SourceRec where
  id : String
  name : String
  link : String
  sourceType : String
  contentHash : String
  effectiveContent : String
deriving Repr, DecidableEq

/-- `ContentStore` row. -/
structure ContentRec where
  contentHash : String
  content : String
deriving Repr, DecidableEq

/-- The two tables touched by `extract_knowledge`. -/
structure KnowledgeDB where
  sources : List SourceRec
  contents : List ContentRec
deriving Repr, DecidableEq

/-- The `attributes` dict fields read by `extract_knowledge`. -/
structure IngestAttrs where
  docLink : Option String
  topicName : String
deriving Repr, DecidableEq

/-- Link resolution at the top of `extract_knowledge`
(`src/knowledge_graph/knowledge.py:72`): `attributes.get("doc_link")`, falling
back to the source path when absent or empty. -/
def resolveDocLink (sourcePath : String) (attrs : IngestAttrs) : String :=
  match attrs.docLink with
  | none => sourcePath
  | some l => if l = "" then sourcePath else l

/-- `_get_content_type_from_path` (`src/knowledge_graph/knowledge.py:24`). -/
def getContentTypeFromPath (sourcePath : String) : String :=
  let ext := pathSuffix sourcePath
  if ext = ".pdf" then "application/pdf"
  else if ext = ".md" then "text/markdown"
  else if ext = ".markdown" then "text/markdown"
  else if ext = ".sql" then "text/sql"
  else if ext = ".py" then "text/plain"
  else if ext = ".txt" then "text/plain"
  else if ext = ".doc" then "application/msword"
  else if ext = ".docx" then
    "application/vnd.openxmlformats-officedocument.wordprocessingml.document"
  else if ext = ".xls" then "application/vnd.ms-excel"
  else if ext = ".xlsx" then
    "application/vnd.openxmlformats-officedocument.spreadsheetml.sheet"
  else if ext = ".jpg" then "image/jpeg"
  else if ext = ".jpeg" then "image/jpeg"
  else if ext = ".png" then "image/png"
  else if ext = ".mp4" then "video/mp4"
  else "application/octet-stream"

/-- The dict returned by `extract_knowledge` (its `status` field is always
`"success"` on the non-raising paths). -/
structure ExtractResult where
  status : String
  sourceId : String
  sourcePath : String
  sourceContent : String
  sourceLink : String
  sourceName : String
  sourceType : String
deriving Repr, DecidableEq

/-- `KnowledgeBuilder.extract_knowledge` (`src/knowledge_graph/knowledge.py:66`).
`hashFn` stands for SHA-256 over the raw bytes, `rawContent` for the file
bytes, `extractRes` for the external `extract_source_data` call, and
`newSourceId` for the id the database assigns to a freshly inserted
`SourceData` row. If a `SourceData` with the resolved link exists it is
returned unchanged; otherwise the `ContentStore` row is reused by hash or
created from the extractor output, and a new `SourceData` row is inserted. -/
def extractKnowledge (hashFn : String → String) (db : KnowledgeDB)
    (sourcePath : String) (attrs : IngestAttrs) (rawContent : String)
    (extractRes : Except String String) (newSourceId : String) :
    Except String (ExtractResult × KnowledgeDB) :=
  let docLink := resolveDocLink sourcePath attrs
  match db.sources.find? (fun s => s.link = docLink) with
  | some s =>
    .ok ({ status := "success", sourceId := s.id, sourcePath := sourcePath,
           sourceContent := s.effectiveContent, sourceLink := s.link,
           sourceName := s.name, sourceType := s.sourceType }, db)
  | none =>
    let contentHash := hashFn rawContent
    let contentType := getContentTypeFromPath sourcePath
    match db.contents.find? (fun c => c.contentHash = contentHash) with
    | some cs =>
      let sd : SourceRec :=
        { id := newSourceId, name := pathStem sourcePath, link := docLink,
          sourceType := contentType, contentHash := cs.contentHash,
          effectiveContent := cs.content }
      .ok ({ status := "success", sourceId := sd.id, sourcePath := sourcePath,
             sourceContent := sd.effectiveContent, sourceLink := sd.link,
             sourceName := sd.name, sourceType := contentType },
           { db with sources := db.sources ++ [sd] })
    | none =>
      match extractRes with
      | .error e => .error ("Failed to process " ++ sourcePath ++ ": " ++ e)
      | .ok extracted =>
        let cs : ContentRec := { contentHash := contentHash,
                                 content := extracted }
        let sd : SourceRec :=
          { id := newSourceId, name := pathStem sourcePath, link := docLink,
            sourceType := contentType, contentHash := contentHash,
            effectiveContent := extracted }
        .ok ({ status := "success", sourceId := sd.id,
               sourcePath := sourcePath, sourceContent := extracted,
               sourceLink := docLink, sourceName := sd.name,
               sourceType := contentType },
             { sources := db.sources ++ [sd],
               contents := db.contents ++ [cs] })

end Ingest

namespace GraphBuild

/-- The connection-lost test of `NarrativeKnowledgeGraphBuilder._simple_retry`
(`src/knowledge_graph/graph.py:702`): `"Lost connection" in str(e) or
"MySQL server has gone away" in str(e)`. -/
def connectionLostErr (e : String) : Bool :=
  hasSub "Lost connection".data e.data ||
    hasSub "MySQL server has gone away".data e.data

/-- The body of `_simple_retry` (`src/knowledge_graph/graph.py:696`), recursing
over the remaining attempt indices of `range(max_retries)`. `op` gives the
outcome of the transaction on each attempt. The second component records the
`time.sleep(1)` durations performed between attempts. -/
def simpleRetryList (op : ℕ → Except String Unit) (maxRetries : ℕ) :
    List ℕ → Except String Unit × List ℕ
  | [] => (.error "retry attempts exhausted", [])
  | a :: rest =>
    match op a with
    | .ok u => (.ok u, [])
    | .error e =>
      if connectionLostErr e && a < maxRetries - 1 then
        let r := simpleRetryList op maxRetries rest
        (r.1, 1 :: r.2)
      else (.error e, [])

/-- `_simple_retry(operation_func, max_retries=3)`. -/
def simpleRetry (op : ℕ → Except String Unit) (maxRetries : ℕ := 3) :
    Except String Unit × List ℕ :=
  simpleRetryList op maxRetries (List.range maxRetries)

/-- The per-triplet loop of `convert_triplets_to_graph`
(`src/knowledge_graph/graph.py:875`), with each triplet transaction body
abstracted as its attempt-outcome oracle. Starting from triplet index `i`, it
runs `_simple_retry(process_single_triplet)` for each triplet in order; a
retry failure is wrapped in a `RuntimeError` and raised, which aborts the
loop. The second component lists the indices of the triplets whose
transactions committed. -/
def convertTripletsGo (startIdx : ℕ) :
    List (ℕ → Except String Unit) → Except String Unit × List ℕ
  | [] => (.ok (), [])
  | tx :: rest =>
    match (simpleRetry tx 3).1 with
    | .ok _ =>
      let r := convertTripletsGo (startIdx + 1) rest
      (r.1, startIdx :: r.2)
    | .error e =>
      (.error ("Error processing triplet " ++ toString startIdx ++ ": " ++ e),
       [])

/-- `convert_triplets_to_graph` restricted to its control flow: which triplet
transactions commit and whether the call raises. -/
def convertTripletsToGraph (txs : List (ℕ → Except String Unit)) :
    Except String Unit × List ℕ :=
  convertTripletsGo 0 txs

/-- `SourceGraphMapping` row as read by the idempotency guard
(`attributes["topic_name"]` is stored as a plain field here). -/
structure Mapping where
  sourceId : String
  graphElementId : ℕ
  graphElementType : String
  topicName : String
deriving Repr, DecidableEq

/-- The document dict handed to `extract_triplets_from_document`. -/
structure Document where
  sourceId : String
  sourceName : String
  sourceContent : String
deriving Repr, DecidableEq

/-- One extracted triplet after the metadata update of
`extract_narrative_triplets_from_document_content`
(`src/knowledge_graph/graph.py:460`). -/
structure Triplet where
  subjectName : String
  predicate : String
  objectName : String
  topicName : String
  category : String
deriving Repr, DecidableEq

/-- A raw triplet as parsed from the LLM response, before the metadata
update. -/
structure RawTriplet where
  subjectName : String
  predicate : String
  objectName : String
deriving Repr, DecidableEq

/-- `NarrativeKnowledgeGraphBuilder.extract_triplets_from_document`
(`src/knowledge_graph/graph.py:275`): if the source already has a
`SourceGraphMapping` row whose `attributes.topic_name` equals the topic, the
document is skipped and `[]` is returned without consulting the LLM.
Otherwise the LLM extraction (`llmResult`, which may fail) runs and each
triplet is tagged with the topic and the `narrative` category. The boolean
reports whether the LLM was called. -/
def extractTripletsFromDocument (mappings : List Mapping) (topicName : String)
    (document : Document) (llmResult : Except String (List RawTriplet)) :
    Except String (List Triplet × Bool) :=
  if mappings.any fun m =>
      m.sourceId = document.sourceId && m.topicName = topicName then
    .ok ([], false)
  else
    match llmResult with
    | .error e =>
      .error ("Error extracting from document " ++ document.sourceName ++
        ": " ++ e)
    | .ok raws =>
      .ok (raws.map (fun r =>
        { subjectName := r.subjectName, predicate := r.predicate,
          objectName := r.objectName, topicName := topicName,
          category := "narrative" }), true)

end GraphBuild

namespace Daemon

/-- A `GraphBuildStatus` row as it appears in the local store and in a tenant
store. -/
structure BuildRow where
  topicName : String
  sourceId : String
  externalDatabaseUri : String
  status : String
  errorMessage : Option String
deriving Repr, DecidableEq

/-- `DatabaseManager.is_local_mode` (`src/setting/db.py:144`): a URI is local
when it is absent, empty, or equal to the local database URI. `none` models
the Python `None`. -/
def isLocalMode (localUri : String) (databaseUri : Option String) : Bool :=
  match databaseUri with
  | none => true
  | some u => u = "" || u = localUri

/-- The row update of `GraphBuildDaemon._update_final_status`
(`src/knowledge_graph/graph_builder_daemon.py:254`) applied to one store:
rows matching the topic, one of the source ids, and the given
`external_database_uri` value get the new status, and the error message when
one is provided. -/
def applyStatusUpdate (topicName : String) (sourceIds : List String)
    (matchUri : String) (status : String) (errorMessage : Option String)
    (rows : List BuildRow) : List BuildRow :=
  rows.map fun r =>
    if r.topicName = topicName && sourceIds.contains r.sourceId &&
        r.externalDatabaseUri = matchUri then
      { r with status := status,
               errorMessage := match errorMessage with
                 | some m => some m
                 | none => r.errorMessage }
    else r

/-- `GraphBuildDaemon._update_final_status`: update the matching rows in the
local store; when the task's URI is not local, also update the mirror rows in
the tenant store, which carry `external_database_uri = ""`. -/
def updateFinalStatus (localUri topicName : String) (sourceIds : List String)
    (externalDatabaseUri : String) (status : String)
    (errorMessage : Option String) (localRows tenantRows : List BuildRow) :
    List BuildRow × List BuildRow :=
  let localRows2 :=
    applyStatusUpdate topicName sourceIds externalDatabaseUri status
      errorMessage localRows
  if isLocalMode localUri (some externalDatabaseUri) then
    (localRows2, tenantRows)
  else
    (localRows2,
     applyStatusUpdate topicName sourceIds "" status errorMessage tenantRows)

/-- Number of non-`self` parameters of `KnowledgeGraphBuilder.__init__`
(`src/knowledge_graph/graph_builder.py:19`): `llm_client` and
`embedding_func` only — the constructor accepts no session factory. -/
def kgBuilderInitParamCount : ℕ := 2

/-- Number of positional arguments the daemon passes when constructing the
builder (`src/knowledge_graph/graph_builder_daemon.py:413`):
`self.llm_client`, `self.embedding_func`, `session_factory`. -/
def daemonBuilderArgCount : ℕ := 3

/-- Python call semantics for the constructor: a positional-argument count
different from the parameter count raises `TypeError`. -/
def callKnowledgeGraphBuilderCtor : Except String Unit :=
  if daemonBuilderArgCount = kgBuilderInitParamCount then .ok ()
  else .error "TypeError: __init__() takes 3 positional arguments but 4 were given"

/-- `GraphBuildDaemon._process_task`
(`src/knowledge_graph/graph_builder_daemon.py:399`): resolve the session
factory, construct `KnowledgeGraphBuilder(self.llm_client,
self.embedding_func, session_factory)`, run the build, then mark all selected
rows `completed` in both stores. The constructor call is where Python arity
checking applies. -/
def processTask (localUri topicName : String) (sourceIds : List String)
    (externalDatabaseUri : String) (localRows tenantRows : List BuildRow) :
    Except String (List BuildRow × List BuildRow) :=
  match callKnowledgeGraphBuilderCtor with
  | .error e => .error e
  | .ok _ =>
    .ok (updateFinalStatus localUri topicName sourceIds externalDatabaseUri
      "completed" none localRows tenantRows)

/-- The `try/except` around `_process_task` in
`GraphBuildDaemon._process_pending_tasks`
(`src/knowledge_graph/graph_builder_daemon.py:82`): on an exception all
selected rows are marked `failed` with `"Graph build failed: "` plus the
exception text, in both stores. -/
def processPendingTasksStep (localUri topicName : String)
    (sourceIds : List String) (externalDatabaseUri : String)
    (localRows tenantRows : List BuildRow) : List BuildRow × List BuildRow :=
  match processTask localUri topicName sourceIds externalDatabaseUri
      localRows tenantRows with
  | .ok st => st
  | .error e =>
    updateFinalStatus localUri topicName sourceIds externalDatabaseUri
      "failed" (some ("Graph build failed: " ++ e)) localRows tenantRows

end Daemon

namespace Critic

/-- The parsed critic payload: `{is_valid, critique}`. -/
structure Critique where
  isValid : Bool
  critique : String
deriving Repr, DecidableEq

/-- The slice of one issue row of the evaluation dataframe that
`evaluate_issue` reads and writes: its `confidence` column and, per critic
name, the stored raw critique response (absent entries model `None`). -/
structure IssueRow where
  confidence : ℚ
  stored : List (String × String)
deriving Repr, DecidableEq

/-- Read `row[critic_name]`. -/
def lookupStored (stored : List (String × String)) (critic : String) :
    Option String :=
  (stored.find? fun p => p.1 = critic).map (·.2)

/-- Write `issue_df.at[index, critic_name] = response`: set the cell for the
critic, replacing the first existing entry or appending a new one. -/
def storeResponse : List (String × String) → String → String →
    List (String × String)
  | [], critic, resp => [(critic, resp)]
  | p :: rest, critic, resp =>
    if p.1 = critic then (critic, resp) :: rest
    else p :: storeResponse rest critic resp

/-- The skip test at the top of the row loop of `evaluate_issue`
(`src/opt/evaluator.py:27`): the stored critique for the critic exists and
parses as JSON. -/
def storedCritiqueParses (parse : String → Option Critique)
    (stored : List (String × String)) (critic : String) : Bool :=
  match lookupStored stored critic with
  | some s => (parse s).isSome
  | none => false

/-- The body of the row loop of `evaluate_issue` (`src/opt/evaluator.py:21`)
for one critic and one issue row. `parse` models `robust_json_parse(·,
"object")` (called there without an LLM repair client, hence deterministic);
`gen` is the critic response, `none` when `critic_client.generate` raised.
A stored critique that parses causes the row to be skipped; otherwise the
critic runs, and on a parsable response the raw response is stored and the
`confidence` is incremented by `0.9` exactly when `is_valid` is `True`. -/
def evaluateIssueRowStep (parse : String → Option Critique) (critic : String)
    (gen : Option String) (row : IssueRow) : IssueRow :=
  if storedCritiqueParses parse row.stored critic then row
  else
    match gen with
    | none => row
    | some resp =>
      match parse resp with
      | none => row
      | some c =>
        { confidence := row.confidence + if c.isValid then (9 : ℚ)/10 else 0,
          stored := storeResponse row.stored critic resp }

/-- Any sequence of critic evaluations applied to one issue row:
`batch_evaluate_issues` produces one step per configured critic per run, and
`GraphOptimizationEngine._evaluate_issues` repeats runs, so an execution is a
list of `(critic, response)` steps. -/
def runEvaluation (parse : String → Option Critique)
    (steps : List (String × Option String)) (row : IssueRow) : IssueRow :=
  steps.foldl (fun r s => evaluateIssueRowStep parse s.1 s.2 r) row

/-- How many of the configured critics currently have a parsable stored
critique on the row. -/
def parsableStoredCount (parse : String → Option Critique)
    (critics : List String) (row : IssueRow) : ℕ :=
  critics.countP fun c => storedCritiqueParses parse row.stored c

/-- A freshly detected issue row: zero confidence, no stored critiques. -/
def freshRow : IssueRow := { confidence := 0, stored := [] }

end Critic

namespace Blocks

/-- A parsed `Block{name, content, position}` from the mime-specific parsing
stage. -/
structure Block where
  name : String
  content : String
  position : ℕ
deriving Repr, DecidableEq

/-- `KnowledgeBlock` row (`attributes` holds the position). -/
structure KnowledgeBlock where
  id : ℕ
  name : String
  context : Option String
  content : String
  hash : String
  position : ℕ
deriving Repr, DecidableEq

/-- `BlockSourceMapping` row. -/
structure BlockSourceMapping where
  blockId : ℕ
  sourceId : String
  positionInSource : ℕ
deriving Repr, DecidableEq

/-- `SourceData` as read by `split_knowledge_blocks`. -/
structure SourceRow where
  id : String
  name : String
  effectiveContent : String
deriving Repr, DecidableEq

/-- The tables touched by `split_knowledge_blocks`; `nextId` supplies ids for
freshly flushed `KnowledgeBlock` rows. -/
structure BlockDB where
  sources : List SourceRow
  kblocks : List KnowledgeBlock
  mappings : List BlockSourceMapping
  nextId : ℕ
deriving Repr, DecidableEq

/-- The existing-blocks query of `split_knowledge_blocks`
(`src/knowledge_graph/knowledge.py:186`): knowledge blocks joined through
`BlockSourceMapping` on the source id. -/
def existingBlocksFor (db : BlockDB) (sourceId : String) :
    List KnowledgeBlock :=
  db.kblocks.filter fun kb =>
    db.mappings.any fun m => m.blockId = kb.id && m.sourceId = sourceId

/-- `kb_hash_input = f"{block.name}|{content_str}|{context or ''}"`. -/
def kbHashInput (name content : String) (context : Option String) : String :=
  name ++ "|" ++ content ++ "|" ++ context.getD ""

/-- The block list after the parse stage of `split_knowledge_blocks`
(`src/knowledge_graph/knowledge.py:209`): a parser exception is caught and
replaced by a single block holding the whole content at position 1 under the
source name; a parser success with zero blocks is likewise replaced by the
single fallback block under the parsed document name. -/
def parsedBlocks (src : SourceRow)
    (parserRes : Except String (String × List Block)) :
    String × List Block :=
  match parserRes with
  | .error _ => (src.name, [⟨src.name, src.effectiveContent, 1⟩])
  | .ok (n, bs) =>
    if bs.isEmpty then (n, [⟨n, src.effectiveContent, 1⟩]) else (n, bs)

/-- One iteration of the persistence loop of `split_knowledge_blocks`
(`src/knowledge_graph/knowledge.py:264`): reuse a `KnowledgeBlock` by hash or
create one, then ensure a `BlockSourceMapping` between it and the source.
`ctx` models the situated-context generation keyed by block name (`none` both
when generation failed and when it returned nothing). -/
def processBlockStep (hashFn : String → String) (ctx : String → Option String)
    (sourceId : String) (db : BlockDB) (b : Block) :
    BlockDB × KnowledgeBlock :=
  let context := ctx b.name
  let h := hashFn (kbHashInput b.name b.content context)
  let (db1, kb) :=
    match db.kblocks.find? (fun kb => kb.hash = h) with
    | some kb => (db, kb)
    | none =>
      let kb : KnowledgeBlock :=
        { id := db.nextId, name := b.name, context := context,
          content := b.content, hash := h, position := b.position }
      ({ db with kblocks := db.kblocks ++ [kb], nextId := db.nextId + 1 }, kb)
  if db1.mappings.any fun m => m.blockId = kb.id && m.sourceId = sourceId then
    (db1, kb)
  else
    ({ db1 with mappings := db1.mappings ++
        [{ blockId := kb.id, sourceId := sourceId,
           positionInSource := b.position }] }, kb)

/-- The persistence loop over all parsed blocks, collecting the
`created_blocks` list in order. -/
def processBlocksLoop (hashFn : String → String)
    (ctx : String → Option String) (sourceId : String) :
    List Block → BlockDB → BlockDB × List KnowledgeBlock
  | [], db => (db, [])
  | b :: rest, db =>
    let (db1, kb) := processBlockStep hashFn ctx sourceId db b
    let (db2, kbs) := processBlocksLoop hashFn ctx sourceId rest db1
    (db2, kb :: kbs)

/-- `KnowledgeBuilder.split_knowledge_blocks`
(`src/knowledge_graph/knowledge.py:166`): source lookup (ValueError when
missing), early return of already-linked blocks, early return on empty
content, the LLM-client requirement, then parse with fallback and the
persistence loop. -/
def splitKnowledgeBlocks (hashFn : String → String)
    (ctx : String → Option String) (llmClientPresent : Bool) (db : BlockDB)
    (sourceId : String) (parserRes : Except String (String × List Block)) :
    Except String (BlockDB × List KnowledgeBlock) :=
  match db.sources.find? (fun s => s.id = sourceId) with
  | none => .error ("SourceData with id " ++ sourceId ++ " not found")
  | some src =>
    let existing := existingBlocksFor db sourceId
    if !existing.isEmpty then .ok (db, existing)
    else if src.effectiveContent = "" then .ok (db, [])
    else if !llmClientPresent then
      .error "LLM client is required for knowledge block extraction"
    else
      let blocks := (parsedBlocks src parserRes).2
      .ok (processBlocksLoop hashFn ctx sourceId blocks db)

end Blocks


/-! ### Helper lemmas -/

theorem engine_stage1_snd (th : ℚ) (issues newIssues : List Engine.Issue) :
    (Engine.optimizeGraphStage1 th issues newIssues).2 =
      Engine.shouldDetectNewIssues th issues := by
  unfold Engine.optimizeGraphStage1
  by_cases h : Engine.shouldDetectNewIssues th issues <;> simp [h]

/-! ### Claim theorems -/

/-- C8: in `optimize_graph`, a new issue-detection run is performed if and
only if the loaded issue list is empty, or both: every existing issue has at
least one critic evaluation, and no unresolved issue has a validation score
greater than or equal to the configured confidence threshold. -/
theorem c8_detection_gating (th : ℚ) (issues newIssues : List Engine.Issue) :
    (Engine.optimizeGraphStage1 th issues newIssues).2 = true ↔
      issues = [] ∨
        ((∀ i ∈ issues, 0 < i.criticEvaluationsCount) ∧
         ∀ i ∈ issues, i.isResolved = false → i.validationScore < th) := by
  rw [engine_stage1_snd]
  unfold Engine.shouldDetectNewIssues Engine.unresolvedHighConfidence
    Engine.allEvaluated
  by_cases hnil : issues = []
  · simp [hnil]
  · have hlen : ¬ issues.length = 0 := by
      simpa [List.length_eq_zero] using hnil
    rw [if_neg hlen, Bool.and_eq_true, decide_eq_true_eq,
      List.length_eq_zero, List.filter_eq_nil_iff, List.all_eq_true]
    constructor
    · rintro ⟨h1, h2⟩
      refine Or.inr ⟨fun i hi => by simpa using h2 i hi,
        fun i hi hres => ?_⟩
      have hni := h1 i hi
      by_contra hge
      rw [not_lt] at hge
      exact hni (by simp [hres, hge])
    · rintro (h | ⟨h1, h2⟩)
      · exact absurd h hnil
      · refine ⟨fun i hi => ?_, fun i hi => by simpa using h1 i hi⟩
        intro hcontra
        rw [Bool.and_eq_true, Bool.not_eq_true', decide_eq_true_eq]
          at hcontra
        exact absurd hcontra.2 (not_le.mpr (h2 i hi hcontra.1))

/-- C1: contrary to the claim, selecting a (topic, tenant) job with valid
sources never reaches a successful build: `GraphBuildDaemon._process_task`
constructs `KnowledgeGraphBuilder(self.llm_client, self.embedding_func,
session_factory)` with three positional arguments while
`KnowledgeGraphBuilder.__init__` (`src/knowledge_graph/graph_builder.py:19`)
accepts only `(llm_client, embedding_func)`, so the call raises `TypeError`
before any build, and the daemon marks every selected row `failed` (never
`completed`) in both stores. Evaluated here at a concrete external-tenant
job with two processing rows. -/
theorem c1_daemon_builder_ctor_crash :
    Daemon.processTask "mysql://local" "acme" ["s1", "s2"] "mysql://t1"
        [⟨"acme", "s1", "mysql://t1", "processing", none⟩,
         ⟨"acme", "s2", "mysql://t1", "processing", none⟩]
        [⟨"acme", "s1", "", "processing", none⟩,
         ⟨"acme", "s2", "", "processing", none⟩] =
      .error
        "TypeError: __init__() takes 3 positional arguments but 4 were given" ∧
    Daemon.processPendingTasksStep "mysql://local" "acme" ["s1", "s2"]
        "mysql://t1"
        [⟨"acme", "s1", "mysql://t1", "processing", none⟩,
         ⟨"acme", "s2", "mysql://t1", "processing", none⟩]
        [⟨"acme", "s1", "", "processing", none⟩,
         ⟨"acme", "s2", "", "processing", none⟩] =
      ([⟨"acme", "s1", "mysql://t1", "failed",
          some "Graph build failed: TypeError: __init__() takes 3 positional arguments but 4 were given"⟩,
        ⟨"acme", "s2", "mysql://t1", "failed",
          some "Graph build failed: TypeError: __init__() takes 3 positional arguments but 4 were given"⟩],
       [⟨"acme", "s1", "", "failed",
          some "Graph build failed: TypeError: __init__() takes 3 positional arguments but 4 were given"⟩,
        ⟨"acme", "s2", "", "failed",
          some "Graph build failed: TypeError: __init__() takes 3 positional arguments but 4 were given"⟩]) := by
  constructor <;> rfl

/-- C9: if `UPLOAD_DIR/<topic_name>/<filename>` already exists when a file is
uploaded, `_save_uploaded_file` returns the path of the previously stored
file without writing the new bytes: saving a second upload with different
content under the same topic and filename returns the same path, leaves the
filesystem unchanged, and the bytes at that path are still the first
upload's. -/
theorem c9_save_file_keeps_old_bytes (fs : Upload.FileSystem)
    (topic filename c1 c2 : String)
    (h : (Upload.UPLOAD_DIR ++ [topic, filename]) ∉ fs.dirs) :
    (Upload.saveUploadedFile
        (Upload.saveUploadedFile fs topic filename c1).2 topic filename c2).1 =
      (Upload.saveUploadedFile fs topic filename c1).1 ∧
    (Upload.saveUploadedFile
        (Upload.saveUploadedFile fs topic filename c1).2 topic filename c2).2 =
      (Upload.saveUploadedFile fs topic filename c1).2 ∧
    Upload.readFile
        (Upload.saveUploadedFile
          (Upload.saveUploadedFile fs topic filename c1).2 topic filename c2).2
        (Upload.saveUploadedFile
          (Upload.saveUploadedFile fs topic filename c1).2 topic
          filename c2).1 =
      some c1 := by
  simp [Upload.saveUploadedFile, Upload.readFile, h,
    List.find?_cons_of_pos]

/-- Witness for C9 at a concrete filesystem and file. -/
theorem c9_save_file_keeps_old_bytes_witness :
    (Upload.UPLOAD_DIR ++ ["demo", "a.md"]) ∉
        (Upload.FileSystem.mk [] []).dirs ∧
    Upload.readFile
        (Upload.saveUploadedFile
          (Upload.saveUploadedFile (Upload.FileSystem.mk [] []) "demo" "a.md"
            "old bytes").2 "demo" "a.md" "new bytes").2
        (Upload.saveUploadedFile
          (Upload.saveUploadedFile (Upload.FileSystem.mk [] []) "demo" "a.md"
            "old bytes").2 "demo" "a.md" "new bytes").1 =
      some "old bytes" :=
  ⟨by decide,
   (c9_save_file_keeps_old_bytes (Upload.FileSystem.mk [] []) "demo" "a.md"
      "old bytes" "new bytes" (by decide)).2.2⟩

/-- C4: ingestion is idempotent by link. When the resolved doc link
(`attributes.doc_link`, or the source path when absent or empty) matches an
existing `SourceData` row, `extract_knowledge` returns that row's id and
fields with status `success` and leaves the store unchanged: no new
`SourceData` row and no new `ContentStore` row. -/
theorem c4_extract_knowledge_link_idempotent (hashFn : String → String)
    (db : Ingest.KnowledgeDB) (sourcePath : String)
    (attrs : Ingest.IngestAttrs) (rawContent : String)
    (extractRes : Except String String) (newSourceId : String)
    (s : Ingest.SourceRec)
    (h : db.sources.find?
        (fun t => t.link = Ingest.resolveDocLink sourcePath attrs) = some s) :
    Ingest.extractKnowledge hashFn db sourcePath attrs rawContent extractRes
        newSourceId =
      .ok ({ status := "success", sourceId := s.id, sourcePath := sourcePath,
             sourceContent := s.effectiveContent, sourceLink := s.link,
             sourceName := s.name, sourceType := s.sourceType }, db) := by
  simp [Ingest.extractKnowledge, h]

/-- Witness for C4: re-ingesting a path whose resolved link is already
registered returns the existing record and changes neither table. -/
theorem c4_extract_knowledge_link_idempotent_witness :
    (Ingest.KnowledgeDB.mk
        [⟨"id1", "doc", "http://a", "text/markdown", "h0", "old content"⟩]
        [⟨"h0", "old content"⟩]).sources.find?
      (fun t => t.link =
        Ingest.resolveDocLink "/tmp/doc.md" ⟨some "http://a", "demo"⟩) =
      some ⟨"id1", "doc", "http://a", "text/markdown", "h0", "old content"⟩ ∧
    Ingest.extractKnowledge (fun _ => "h1")
        (Ingest.KnowledgeDB.mk
          [⟨"id1", "doc", "http://a", "text/markdown", "h0", "old content"⟩]
          [⟨"h0", "old content"⟩])
        "/tmp/doc.md" ⟨some "http://a", "demo"⟩ "raw bytes" (.ok "extracted")
        "id2" =
      .ok ({ status := "success", sourceId := "id1",
             sourcePath := "/tmp/doc.md", sourceContent := "old content",
             sourceLink := "http://a", sourceName := "doc",
             sourceType := "text/markdown" },
           Ingest.KnowledgeDB.mk
             [⟨"id1", "doc", "http://a", "text/markdown", "h0",
               "old content"⟩]
             [⟨"h0", "old content"⟩]) :=
  ⟨by decide,
   c4_extract_knowledge_link_idempotent (fun _ => "h1")
     (Ingest.KnowledgeDB.mk
       [⟨"id1", "doc", "http://a", "text/markdown", "h0", "old content"⟩]
       [⟨"h0", "old content"⟩])
     "/tmp/doc.md" ⟨some "http://a", "demo"⟩ "raw bytes" (.ok "extracted")
     "id2"
     ⟨"id1", "doc", "http://a", "text/markdown", "h0", "old content"⟩
     (by decide)⟩

/-- C5: for a document whose source id already has a `SourceGraphMapping` row
whose `attributes.topic_name` equals the current topic,
`extract_triplets_from_document` returns an empty triplet list without
calling the LLM (the returned flag is `false`), and materializing an empty
triplet list runs no transaction at all, so a re-run creates no new
entities, relationships, or mappings for the document. -/
theorem c5_source_mapping_guard (mappings : List GraphBuild.Mapping)
    (topicName : String) (document : GraphBuild.Document)
    (llmResult : Except String (List GraphBuild.RawTriplet))
    (h : ∃ m ∈ mappings,
      m.sourceId = document.sourceId ∧ m.topicName = topicName) :
    GraphBuild.extractTripletsFromDocument mappings topicName document
        llmResult = .ok ([], false) ∧
    GraphBuild.convertTripletsToGraph [] = (.ok (), []) := by
  refine ⟨?_, rfl⟩
  have hany : (mappings.any fun m =>
      m.sourceId = document.sourceId && m.topicName = topicName) = true := by
    rcases h with ⟨m, hm, h1, h2⟩
    exact List.any_eq_true.mpr ⟨m, hm, by simp [h1, h2]⟩
  simp [GraphBuild.extractTripletsFromDocument, hany]

/-- Witness for C5: a source already mapped for the topic is skipped even
though the LLM oracle would have produced a triplet. -/
theorem c5_source_mapping_guard_witness :
    (∃ m ∈ [GraphBuild.Mapping.mk "s1" 5 "entity" "demo"],
      m.sourceId = "s1" ∧ m.topicName = "demo") ∧
    GraphBuild.extractTripletsFromDocument
        [GraphBuild.Mapping.mk "s1" 5 "entity" "demo"] "demo"
        (GraphBuild.Document.mk "s1" "docA" "full text")
        (.ok [GraphBuild.RawTriplet.mk "TiDB" "supports" "SQL"]) =
      .ok ([], false) :=
  ⟨⟨GraphBuild.Mapping.mk "s1" 5 "entity" "demo", by simp, rfl, rfl⟩,
   (c5_source_mapping_guard [GraphBuild.Mapping.mk "s1" 5 "entity" "demo"]
     "demo" (GraphBuild.Document.mk "s1" "docA" "full text")
     (.ok [GraphBuild.RawTriplet.mk "TiDB" "supports" "SQL"])
     ⟨GraphBuild.Mapping.mk "s1" 5 "entity" "demo", by simp, rfl, rfl⟩).1⟩


theorem opt_relUpdate_avoids_deleted (originalIds : List ℕ) (mid : ℕ)
    (r : Opt.Relationship) (h : mid ∉ originalIds) :
    (Opt.relUpdate originalIds mid r).sourceEntityId ∉ originalIds ∧
    (Opt.relUpdate originalIds mid r).targetEntityId ∉ originalIds := by
  unfold Opt.relUpdate
  by_cases hs : r.sourceEntityId ∈ originalIds <;>
    by_cases ht : r.targetEntityId ∈ originalIds <;>
    simp [hs, ht, h]

theorem opt_mapUpdate_entity_avoids_deleted (originalIds : List ℕ) (mid : ℕ)
    (mp : Opt.SourceGraphMapping) (h : mid ∉ originalIds) :
    (Opt.mapUpdate originalIds mid mp).graphElementType = "entity" →
    (Opt.mapUpdate originalIds mid mp).graphElementId ∉ originalIds := by
  unfold Opt.mapUpdate
  by_cases hin : mp.graphElementId ∈ originalIds <;>
    by_cases hty : mp.graphElementType = "entity" <;>
    simp [hin, hty, h]

theorem opt_mapUpdate_deleted_to_merged (originalIds : List ℕ) (mid : ℕ)
    (mp : Opt.SourceGraphMapping) (hty : mp.graphElementType = "entity")
    (hin : mp.graphElementId ∈ originalIds) :
    Opt.mapUpdate originalIds mid mp = { mp with graphElementId := mid } := by
  unfold Opt.mapUpdate
  simp [hty, hin]

/-- C6: after a `redundancy_entity` merge commits (`hrun` returns the success
flag `true`), no `Relationship` row has its `source_entity_id` or
`target_entity_id` equal to any of the deleted original entity ids; no
`SourceGraphMapping` row is deleted (the table keeps its length); no
`entity`-typed mapping still references a deleted id; and every
`entity`-typed mapping row that referenced an original id is present
repointed at the merged id. `hfresh` states that the freshly flushed merged
entity id is new to the entity table. -/
theorem c6_redundancy_merge_repairs_references (db : Opt.GraphDB)
    (affectedIds : List ℕ) (res : Option Opt.MergedEntity) (mid : ℕ)
    (db2 : Opt.GraphDB)
    (hfresh : ∀ e ∈ db.entities, e.id ≠ mid)
    (hrun : Opt.processRedundancyEntityIssue db affectedIds res mid =
      (db2, true)) :
    (∀ r ∈ db2.relationships,
      r.sourceEntityId ∉ Opt.deletedOriginalIds db affectedIds ∧
      r.targetEntityId ∉ Opt.deletedOriginalIds db affectedIds) ∧
    db2.mappings.length = db.mappings.length ∧
    (∀ mp ∈ db2.mappings, mp.graphElementType = "entity" →
      mp.graphElementId ∉ Opt.deletedOriginalIds db affectedIds) ∧
    (∀ mp ∈ db.mappings, mp.graphElementType = "entity" →
      mp.graphElementId ∈ Opt.deletedOriginalIds db affectedIds →
      { mp with graphElementId := mid } ∈ db2.mappings) := by
  have hmid : mid ∉ Opt.deletedOriginalIds db affectedIds := by
    unfold Opt.deletedOriginalIds
    intro hmem
    obtain ⟨e, he, heq⟩ := List.mem_map.mp hmem
    exact hfresh e (List.mem_filter.mp he).1 heq
  unfold Opt.processRedundancyEntityIssue at hrun
  by_cases hfound :
      (db.entities.filter fun e => affectedIds.contains e.id).isEmpty
  · rw [if_pos hfound] at hrun
    simp at hrun
  · rw [if_neg hfound] at hrun
    cases res with
    | none => simp at hrun
    | some m =>
      have hrel : db2.relationships = db.relationships.map
          (Opt.relUpdate (Opt.deletedOriginalIds db affectedIds) mid) := by
        have h1 := congrArg (fun p => p.1.relationships) hrun
        simpa [Opt.deletedOriginalIds] using h1.symm
      have hmaps : db2.mappings = db.mappings.map
          (Opt.mapUpdate (Opt.deletedOriginalIds db affectedIds) mid) := by
        have h1 := congrArg (fun p => p.1.mappings) hrun
        simpa [Opt.deletedOriginalIds] using h1.symm
      refine ⟨?_, ?_, ?_, ?_⟩
      · intro r hr
        rw [hrel] at hr
        obtain ⟨r0, hr0, rfl⟩ := List.mem_map.mp hr
        exact opt_relUpdate_avoids_deleted _ _ _ hmid
      · rw [hmaps, List.length_map]
      · intro mp hmp
        rw [hmaps] at hmp
        obtain ⟨mp0, hmp0, rfl⟩ := List.mem_map.mp hmp
        exact opt_mapUpdate_entity_avoids_deleted _ _ _ hmid
      · intro mp hmp hty hdel
        rw [hmaps]
        exact List.mem_map.mpr
          ⟨mp, hmp, opt_mapUpdate_deleted_to_merged _ _ _ hty hdel⟩

/-- Witness for C6 at a concrete two-entity merge. -/
theorem c6_redundancy_merge_repairs_references_witness :
    (∀ e ∈ (Opt.GraphDB.mk [⟨1, "A", "a"⟩, ⟨2, "B", "b"⟩] [⟨10, 1, 2, "r"⟩]
        [⟨"s1", 1, "entity"⟩]).entities, e.id ≠ 7) ∧
    Opt.processRedundancyEntityIssue
        (Opt.GraphDB.mk [⟨1, "A", "a"⟩, ⟨2, "B", "b"⟩] [⟨10, 1, 2, "r"⟩]
          [⟨"s1", 1, "entity"⟩]) [1, 2] (some ⟨"AB", "m"⟩) 7 =
      (Opt.GraphDB.mk [⟨7, "AB", "m"⟩] [⟨10, 7, 7, "r"⟩]
        [⟨"s1", 7, "entity"⟩], true) ∧
    ((∀ r ∈ (Opt.GraphDB.mk [⟨7, "AB", "m"⟩] [⟨10, 7, 7, "r"⟩]
          [⟨"s1", 7, "entity"⟩] : Opt.GraphDB).relationships,
        r.sourceEntityId ∉
          Opt.deletedOriginalIds
            (Opt.GraphDB.mk [⟨1, "A", "a"⟩, ⟨2, "B", "b"⟩] [⟨10, 1, 2, "r"⟩]
              [⟨"s1", 1, "entity"⟩]) [1, 2] ∧
        r.targetEntityId ∉
          Opt.deletedOriginalIds
            (Opt.GraphDB.mk [⟨1, "A", "a"⟩, ⟨2, "B", "b"⟩] [⟨10, 1, 2, "r"⟩]
              [⟨"s1", 1, "entity"⟩]) [1, 2]) ∧
      (Opt.GraphDB.mk [⟨7, "AB", "m"⟩] [⟨10, 7, 7, "r"⟩]
          [⟨"s1", 7, "entity"⟩] : Opt.GraphDB).mappings.length =
        (Opt.GraphDB.mk [⟨1, "A", "a"⟩, ⟨2, "B", "b"⟩] [⟨10, 1, 2, "r"⟩]
          [⟨"s1", 1, "entity"⟩] : Opt.GraphDB).mappings.length ∧
      (∀ mp ∈ (Opt.GraphDB.mk [⟨7, "AB", "m"⟩] [⟨10, 7, 7, "r"⟩]
          [⟨"s1", 7, "entity"⟩] : Opt.GraphDB).mappings,
        mp.graphElementType = "entity" →
        mp.graphElementId ∉
          Opt.deletedOriginalIds
            (Opt.GraphDB.mk [⟨1, "A", "a"⟩, ⟨2, "B", "b"⟩] [⟨10, 1, 2, "r"⟩]
              [⟨"s1", 1, "entity"⟩]) [1, 2]) ∧
      (∀ mp ∈ (Opt.GraphDB.mk [⟨1, "A", "a"⟩, ⟨2, "B", "b"⟩]
          [⟨10, 1, 2, "r"⟩] [⟨"s1", 1, "entity"⟩] : Opt.GraphDB).mappings,
        mp.graphElementType = "entity" →
        mp.graphElementId ∈
          Opt.deletedOriginalIds
            (Opt.GraphDB.mk [⟨1, "A", "a"⟩, ⟨2, "B", "b"⟩] [⟨10, 1, 2, "r"⟩]
              [⟨"s1", 1, "entity"⟩]) [1, 2] →
        { mp with graphElementId := 7 } ∈
          (Opt.GraphDB.mk [⟨7, "AB", "m"⟩] [⟨10, 7, 7, "r"⟩]
            [⟨"s1", 7, "entity"⟩] : Opt.GraphDB).mappings)) :=
  ⟨by decide, by decide,
   c6_redundancy_merge_repairs_references
     (Opt.GraphDB.mk [⟨1, "A", "a"⟩, ⟨2, "B", "b"⟩] [⟨10, 1, 2, "r"⟩]
       [⟨"s1", 1, "entity"⟩]) [1, 2] (some ⟨"AB", "m"⟩) 7
     (Opt.GraphDB.mk [⟨7, "AB", "m"⟩] [⟨10, 7, 7, "r"⟩]
       [⟨"s1", 7, "entity"⟩])
     (by decide) (by decide)⟩

theorem upload_mem_zip_left {α β : Type} (files : List α) (links : List β)
    (hlen : files.length = links.length) (f : α) (hf : f ∈ files) :
    ∃ l, (f, l) ∈ files.zip links := by
  induction files generalizing links with
  | nil => cases hf
  | cons a rest ih =>
    cases links with
    | nil => simp at hlen
    | cons b lrest =>
      rcases List.mem_cons.mp hf with rfl | hf2
      · exact ⟨b, by simp⟩
      · obtain ⟨l, hl⟩ := ih lrest (by simpa using hlen) hf2
        exact ⟨l, by simp [hl]⟩

theorem upload_loop_characterization
    (pairs : List (Upload.UploadFile × String)) (acc1 : List String)
    (acc2 : List (String × String × String))
    (hval : ∀ p ∈ pairs, Upload.validateFile p.1 = none)
    (hout : ∀ p ∈ pairs, ∀ e, p.1.outcome ≠ .httpExc e) :
    Upload.processFilesLoop pairs acc1 acc2 =
      .ok (acc1.reverse ++ Upload.processedDocsOf pairs,
           acc2.reverse ++ Upload.failedUploadsOf pairs) := by
  induction pairs generalizing acc1 acc2 with
  | nil =>
    simp [Upload.processFilesLoop, Upload.processedDocsOf,
      Upload.failedUploadsOf]
  | cons p rest ih =>
    obtain ⟨f, link⟩ := p
    have hv := hval (f, link) (List.mem_cons_self _ _)
    have h1 : ∀ q ∈ rest, Upload.validateFile q.1 = none :=
      fun q hq => hval q (List.mem_cons_of_mem _ hq)
    have h2 : ∀ q ∈ rest, ∀ e, q.1.outcome ≠ .httpExc e :=
      fun q hq => hout q (List.mem_cons_of_mem _ hq)
    cases hoc : f.outcome with
    | httpExc e => exact absurd hoc (hout (f, link) (List.mem_cons_self _ _) e)
    | procError r =>
      simp only [Upload.processFilesLoop, hv, hoc]
      rw [ih _ _ h1 h2]
      simp [Upload.processedDocsOf, Upload.failedUploadsOf, hoc,
        List.filterMap_cons]
    | processed d =>
      simp only [Upload.processFilesLoop, hv, hoc]
      rw [ih _ _ h1 h2]
      simp [Upload.processedDocsOf, Upload.failedUploadsOf, hoc,
        List.filterMap_cons]

/-- C2 counterexample: the claim is false on the code. The file `a.md` is
processed successfully when uploaded alone, yet a batch that also contains
`b.exe` — which merely fails extension validation — is answered with
HTTP 400 (the re-raised `HTTPException`), not HTTP 200 with a `failed[]`
entry, and when the invalid file comes first the remaining valid file is
never processed at all. -/
theorem c2_validation_aborts_batch_counterexample :
    Upload.uploadDocuments
        [{ filename := "a.md", size := 100,
           outcome := .processed "doc1" }] ["l1"] none =
      .ok { uploadedCount := 1, totalCount := 1, documents := ["doc1"],
            failed := [] } ∧
    Upload.uploadDocuments
        [{ filename := "a.md", size := 100, outcome := .processed "doc1" },
         { filename := "b.exe", size := 100, outcome := .processed "doc2" }]
        ["l1", "l2"] none =
      .error ⟨400, "File type not supported"⟩ ∧
    Upload.uploadDocuments
        [{ filename := "b.exe", size := 100, outcome := .processed "doc2" },
         { filename := "a.md", size := 100, outcome := .processed "doc1" }]
        ["l2", "l1"] none =
      .error ⟨400, "File type not supported"⟩ := by
  refine ⟨?_, ?_, ?_⟩ <;> rfl

/-- C2 (amended): per-file isolation holds only for ordinary processing
errors. For a batch that passes the pre-checks, in which every file passes
validation and no file's save/process chain raises an `HTTPException`: if at
least one file processes successfully the endpoint returns HTTP 200 with each
failing file reported in `failed[]`, and if every file fails processing it
returns HTTP 400. (A validation failure instead aborts the whole request —
see the counterexample.) -/
theorem c2_batch_isolation_amended (files : List Upload.UploadFile)
    (links : List String) (dbCheck : Option Bool)
    (hne : files ≠ []) (hlen : files.length = links.length)
    (hdup : Upload.hasDuplicate links = false) (hdb : dbCheck ≠ some false)
    (hval : ∀ f ∈ files, Upload.validateFile f = none)
    (hout : ∀ f ∈ files, ∀ e, f.outcome ≠ Upload.FileOutcome.httpExc e) :
    ((∃ f ∈ files, ∃ d, f.outcome = Upload.FileOutcome.processed d) →
      Upload.uploadDocuments files links dbCheck =
        .ok { uploadedCount :=
                (Upload.processedDocsOf (files.zip links)).length,
              totalCount := files.length,
              documents := Upload.processedDocsOf (files.zip links),
              failed := Upload.failedUploadsOf (files.zip links) }) ∧
    ((∀ f ∈ files, ∃ r, f.outcome = Upload.FileOutcome.procError r) →
      Upload.uploadDocuments files links dbCheck =
        .error ⟨400, "All files failed to process"⟩) := by
  have hlinksne : links ≠ [] := by
    intro h
    subst h
    simp only [List.length_nil] at hlen
    exact hne (List.length_eq_zero.mp hlen)
  have hvalp : ∀ p ∈ files.zip links, Upload.validateFile p.1 = none :=
    fun p hp => hval p.1 (List.of_mem_zip hp).1
  have houtp : ∀ p ∈ files.zip links, ∀ e,
      p.1.outcome ≠ Upload.FileOutcome.httpExc e :=
    fun p hp => hout p.1 (List.of_mem_zip hp).1
  have hloop := upload_loop_characterization (files.zip links) [] []
    hvalp houtp
  unfold Upload.uploadDocuments
  rw [if_neg (by simp [List.isEmpty_iff, hne]),
    if_neg (by simp [List.isEmpty_iff, hlinksne]),
    if_neg (by simp [hlen]), if_neg (by simp [hdup]), if_neg hdb, hloop]
  simp only [List.reverse_nil, List.nil_append]
  constructor
  · rintro ⟨f, hf, d, hd⟩
    obtain ⟨l, hl⟩ := upload_mem_zip_left files links hlen f hf
    have hdmem : d ∈ Upload.processedDocsOf (files.zip links) :=
      List.mem_filterMap.mpr ⟨(f, l), hl, by simp [hd]⟩
    have hpne : Upload.processedDocsOf (files.zip links) ≠ [] := by
      intro hnil
      rw [hnil] at hdmem
      cases hdmem
    rw [if_neg (by simp [List.isEmpty_iff, hpne])]
  · intro hall
    have hpnil : Upload.processedDocsOf (files.zip links) = [] := by
      apply List.filterMap_eq_nil_iff.mpr
      intro p hp
      obtain ⟨r, hr⟩ := hall p.1 (List.of_mem_zip hp).1
      simp [hr]
    have hzne : files.zip links ≠ [] := by
      cases hfz : files with
      | nil => exact absurd hfz hne
      | cons a rest =>
        cases hlz : links with
        | nil => exact absurd hlz hlinksne
        | cons b lrest => simp [hfz, hlz]
    obtain ⟨p, rest, hp⟩ := List.exists_cons_of_ne_nil hzne
    have hfne : Upload.failedUploadsOf (files.zip links) ≠ [] := by
      obtain ⟨r, hr⟩ := hall p.1
        (List.of_mem_zip (by rw [hp]; exact List.mem_cons_self _ _)).1
      rw [hp]
      unfold Upload.failedUploadsOf
      rw [List.filterMap_cons]
      simp [hr]
    rw [if_pos (by simp [List.isEmpty_iff, hpnil, hfne])]

/-- Witness for C2 (amended) at a concrete two-file batch: one file
processes, one fails with an ordinary processing error; the endpoint answers
HTTP 200 and lists the failing file. -/
theorem c2_batch_isolation_amended_witness :
    ([{ filename := "a.md", size := 100,
        outcome := Upload.FileOutcome.processed "doc1" },
      { filename := "b.md", size := 100,
        outcome := Upload.FileOutcome.procError "extraction failed" }] ≠
        ([] : List Upload.UploadFile)) ∧
    Upload.uploadDocuments
        [{ filename := "a.md", size := 100,
           outcome := Upload.FileOutcome.processed "doc1" },
         { filename := "b.md", size := 100,
           outcome := Upload.FileOutcome.procError "extraction failed" }]
        ["l1", "l2"] none =
      .ok { uploadedCount :=
              (Upload.processedDocsOf
                ([{ filename := "a.md", size := 100,
                    outcome := Upload.FileOutcome.processed "doc1" },
                  { filename := "b.md", size := 100,
                    outcome :=
                      Upload.FileOutcome.procError "extraction failed" }].zip
                  ["l1", "l2"])).length,
            totalCount := 2,
            documents :=
              Upload.processedDocsOf
                ([{ filename := "a.md", size := 100,
                    outcome := Upload.FileOutcome.processed "doc1" },
                  { filename := "b.md", size := 100,
                    outcome :=
                      Upload.FileOutcome.procError "extraction failed" }].zip
                  ["l1", "l2"]),
            failed :=
              Upload.failedUploadsOf
                ([{ filename := "a.md", size := 100,
                    outcome := Upload.FileOutcome.processed "doc1" },
                  { filename := "b.md", size := 100,
                    outcome :=
                      Upload.FileOutcome.procError "extraction failed" }].zip
                  ["l1", "l2"]) } :=
  ⟨by simp,
   (c2_batch_isolation_amended
     [{ filename := "a.md", size := 100,
        outcome := Upload.FileOutcome.processed "doc1" },
      { filename := "b.md", size := 100,
        outcome := Upload.FileOutcome.procError "extraction failed" }]
     ["l1", "l2"] none (by simp) rfl rfl (by simp)
     (by intro f hf; fin_cases hf <;> rfl)
     (by intro f hf e; fin_cases hf <;> simp)).1
     ⟨{ filename := "a.md", size := 100,
        outcome := Upload.FileOutcome.processed "doc1" },
      by simp, "doc1", rfl⟩⟩

/-- C3 counterexample: the claim is false on the code. When the first triplet
transaction fails with an error that is not connection-lost (here a deadlock
message), `convert_triplets_to_graph` wraps it in a `RuntimeError` and
raises, so the second triplet — whose transaction would have succeeded — is
never materialized: the committed-index list is empty, not `[1]`. -/
theorem c3_other_error_aborts_document_counterexample :
    GraphBuild.convertTripletsToGraph
        [fun _ => Except.error "Deadlock found", fun _ => Except.ok ()] =
      (Except.error "Error processing triplet 0: Deadlock found", []) ∧
    GraphBuild.simpleRetry (fun _ => Except.ok ()) 3 =
      (Except.ok (), []) := ⟨rfl, rfl⟩

theorem graphbuild_convertGo_ok_prefix
    (pre : List (ℕ → Except String Unit)) (t : ℕ → Except String Unit)
    (post : List (ℕ → Except String Unit)) (e : String) (i : ℕ)
    (hpre : ∀ f ∈ pre, (GraphBuild.simpleRetry f 3).1 = Except.ok ())
    (ht : (GraphBuild.simpleRetry t 3).1 = Except.error e) :
    GraphBuild.convertTripletsGo i (pre ++ t :: post) =
      (Except.error
        ("Error processing triplet " ++ toString (i + pre.length) ++ ": " ++
          e),
       List.range' i pre.length) := by
  induction pre generalizing i with
  | nil =>
    simp only [List.nil_append, GraphBuild.convertTripletsGo, ht]
    simp
  | cons f rest ih =>
    have hf := hpre f (List.mem_cons_self _ _)
    simp only [List.cons_append, GraphBuild.convertTripletsGo, hf,
      List.append_eq]
    rw [ih (i + 1) (fun g hg => hpre g (List.mem_cons_of_mem _ hg))]
    refine Prod.ext ?_ ?_
    · simp only [List.length_cons]
      have : i + (rest.length + 1) = i + 1 + rest.length := by omega
      rw [this]
    · simp [List.range'_succ]

/-- C3 (amended): a per-triplet transaction failing with a connection-lost
error (`"Lost connection"` / `"MySQL server has gone away"`) is retried up to
3 attempts with a fixed 1-second sleep between attempts (not exponential
backoff); after 3 failing attempts the error propagates. A transaction that
fails with any other error (or exhausts its retries) aborts the whole
document materialization: `convert_triplets_to_graph` raises, the earlier
triplets stay committed, and the remaining triplets are not processed. -/
theorem c3_retry_and_abort_amended :
    (∀ (e : String) (op : ℕ → Except String Unit),
      GraphBuild.connectionLostErr e = true →
      op 0 = Except.error e → op 1 = Except.error e →
      op 2 = Except.ok () →
      GraphBuild.simpleRetry op 3 = (Except.ok (), [1, 1])) ∧
    (∀ (e : String) (op : ℕ → Except String Unit),
      GraphBuild.connectionLostErr e = true →
      (∀ n, op n = Except.error e) →
      GraphBuild.simpleRetry op 3 = (Except.error e, [1, 1])) ∧
    (∀ (pre : List (ℕ → Except String Unit)) (t : ℕ → Except String Unit)
        (post : List (ℕ → Except String Unit)) (e : String),
      (∀ f ∈ pre, (GraphBuild.simpleRetry f 3).1 = Except.ok ()) →
      (GraphBuild.simpleRetry t 3).1 = Except.error e →
      GraphBuild.convertTripletsToGraph (pre ++ t :: post) =
        (Except.error
          ("Error processing triplet " ++ toString pre.length ++ ": " ++ e),
         List.range pre.length)) := by
  refine ⟨?_, ?_, ?_⟩
  · intro e op hconn h0 h1 h2
    have hr : List.range 3 = [0, 1, 2] := rfl
    rw [GraphBuild.simpleRetry, hr]
    simp [GraphBuild.simpleRetryList, h0, h1, h2, hconn]
  · intro e op hconn hall
    have hr : List.range 3 = [0, 1, 2] := rfl
    rw [GraphBuild.simpleRetry, hr]
    simp [GraphBuild.simpleRetryList, hall 0, hall 1, hall 2, hconn]
  · intro pre t post e hpre ht
    rw [GraphBuild.convertTripletsToGraph,
      graphbuild_convertGo_ok_prefix pre t post e 0 hpre ht,
      List.range_eq_range']
    simp

/-- Witness for C3 (amended) at concrete transaction behaviours: two
connection-lost attempts then success; a permanent connection-lost failure;
and a deadlock in the middle triplet of three, which aborts with only the
first triplet committed. -/
theorem c3_retry_and_abort_amended_witness :
    GraphBuild.connectionLostErr "Lost connection to MySQL server" = true ∧
    GraphBuild.simpleRetry
        (fun n => if n < 2 then
          Except.error "Lost connection to MySQL server"
        else Except.ok ()) 3 =
      (Except.ok (), [1, 1]) ∧
    GraphBuild.simpleRetry
        (fun _ => Except.error "Lost connection to MySQL server") 3 =
      (Except.error "Lost connection to MySQL server", [1, 1]) ∧
    GraphBuild.convertTripletsToGraph
        [fun _ => Except.ok (), fun _ => Except.error "Deadlock found",
         fun _ => Except.ok ()] =
      (Except.error "Error processing triplet 1: Deadlock found", [0]) :=
  ⟨rfl,
   (c3_retry_and_abort_amended).1 "Lost connection to MySQL server"
     (fun n => if n < 2 then
       Except.error "Lost connection to MySQL server"
     else Except.ok ()) rfl rfl rfl rfl,
   (c3_retry_and_abort_amended).2.1 "Lost connection to MySQL server"
     (fun _ => Except.error "Lost connection to MySQL server") rfl
     (fun _ => rfl),
   by
     have h := (c3_retry_and_abort_amended).2.2 [fun _ => Except.ok ()]
       (fun _ => Except.error "Deadlock found") [fun _ => Except.ok ()]
       "Deadlock found"
       (by
         intro f hf
         simp only [List.mem_singleton] at hf
         subst hf
         rfl)
       rfl
     simpa using h⟩

theorem critic_lookup_store_same (c v : String)
    (st : List (String × String)) :
    Critic.lookupStored (Critic.storeResponse st c v) c = some v := by
  induction st with
  | nil => simp [Critic.storeResponse, Critic.lookupStored]
  | cons p rest ih =>
    by_cases hp : p.1 = c
    · simp [Critic.storeResponse, hp, Critic.lookupStored]
    · simpa [Critic.storeResponse, hp, Critic.lookupStored,
        List.find?_cons] using ih

theorem critic_lookup_store_other (c v x : String) (hx : x ≠ c)
    (st : List (String × String)) :
    Critic.lookupStored (Critic.storeResponse st c v) x =
      Critic.lookupStored st x := by
  induction st with
  | nil => simp [Critic.storeResponse, Critic.lookupStored, Ne.symm hx]
  | cons p rest ih =>
    by_cases hp : p.1 = c
    · have hpx : ¬ p.1 = x := fun h => hx (h.symm.trans hp)
      simp [Critic.storeResponse, hp, Critic.lookupStored, List.find?_cons,
        Ne.symm hx, hpx]
    · by_cases hpx : p.1 = x
      · simp [Critic.storeResponse, hp, Critic.lookupStored,
          List.find?_cons, hpx, hx]
      · simpa [Critic.storeResponse, hp, Critic.lookupStored,
          List.find?_cons, hpx] using ih

theorem critic_countP_update (c : String) (p q : String → Bool)
    (hq : ∀ x, x ≠ c → q x = p x) (hpc : p c = false) (hqc : q c = true) :
    ∀ (l : List String), l.Nodup → c ∈ l → l.countP q = l.countP p + 1 := by
  intro l
  induction l with
  | nil => intro _ hc; cases hc
  | cons a rest ih =>
    intro hnd hc
    have hnd2 := List.nodup_cons.mp hnd
    rw [List.countP_cons, List.countP_cons]
    rcases List.mem_cons.mp hc with rfl | hcr
    · have hrest : rest.countP q = rest.countP p :=
        List.countP_congr fun x hx => by
          rw [hq x (fun hxc => hnd2.1 (hxc ▸ hx))]
      rw [hrest, hpc, hqc]
      simp
    · have hac : a ≠ c := fun h => hnd2.1 (h ▸ hcr)
      rw [hq a hac, ih hnd2.2 hcr]
      omega

theorem critic_step_invariant (parse : String → Option Critic.Critique)
    (critics : List String) (hnd : critics.Nodup) (c : String)
    (hc : c ∈ critics) (gen : Option String) (row : Critic.IssueRow)
    (hinv : row.confidence ≤
      (9/10 : ℚ) * Critic.parsableStoredCount parse critics row) :
    (Critic.evaluateIssueRowStep parse c gen row).confidence ≤
      (9/10 : ℚ) *
        Critic.parsableStoredCount parse critics
          (Critic.evaluateIssueRowStep parse c gen row) := by
  unfold Critic.evaluateIssueRowStep
  by_cases hskip : Critic.storedCritiqueParses parse row.stored c = true
  · rw [if_pos hskip]
    exact hinv
  · rw [if_neg hskip]
    cases gen with
    | none => exact hinv
    | some resp =>
      dsimp only
      cases hparse : parse resp with
      | none => exact hinv
      | some cr =>
        dsimp only
        have hq : ∀ x, x ≠ c →
            Critic.storedCritiqueParses parse
              (Critic.storeResponse row.stored c resp) x =
            Critic.storedCritiqueParses parse row.stored x := by
          intro x hx
          unfold Critic.storedCritiqueParses
          rw [critic_lookup_store_other c resp x hx]
        have hqc : Critic.storedCritiqueParses parse
            (Critic.storeResponse row.stored c resp) c = true := by
          unfold Critic.storedCritiqueParses
          rw [critic_lookup_store_same]
          simp [hparse]
        have hcount := critic_countP_update c _ _ hq
          (Bool.not_eq_true _ ▸ (by simpa using hskip)) hqc critics hnd hc
        unfold Critic.parsableStoredCount at hinv ⊢
        simp only
        rw [hcount]
        by_cases hv : cr.isValid
        · simp only [hv, if_true]
          push_cast
          linarith [hinv]
        · simp only [hv, if_false]
          push_cast
          linarith [hinv]

theorem critic_run_invariant (parse : String → Option Critic.Critique)
    (critics : List String) (hnd : critics.Nodup) :
    ∀ (steps : List (String × Option String)) (row : Critic.IssueRow),
      (∀ s ∈ steps, s.1 ∈ critics) →
      row.confidence ≤
        (9/10 : ℚ) * Critic.parsableStoredCount parse critics row →
      (Critic.runEvaluation parse steps row).confidence ≤
        (9/10 : ℚ) *
          Critic.parsableStoredCount parse critics
            (Critic.runEvaluation parse steps row) := by
  intro steps
  induction steps with
  | nil =>
    intro row _ h
    simpa [Critic.runEvaluation] using h
  | cons s rest ih =>
    intro row hsteps hrow
    simp only [Critic.runEvaluation, List.foldl_cons]
    exact ih (Critic.evaluateIssueRowStep parse s.1 s.2 row)
      (fun q hq => hsteps q (List.mem_cons_of_mem _ hq))
      (critic_step_invariant parse critics hnd s.1
        (hsteps s (List.mem_cons_self _ _)) s.2 row hrow)

/-- C7: starting from a freshly detected issue (confidence `0`, no stored
critiques), any sequence of `evaluate_issue` runs over the configured
critics keeps the stored validation score (`confidence`) at most `0.9` times
the number of configured critics: a critic adds `0.9` only when its response
parses with `is_valid = true`, the parsable response is then stored, and an
issue whose stored critique for that critic parses is skipped on
re-evaluation, so each critic contributes at most once. -/
theorem c7_confidence_bounded_by_critics
    (parse : String → Option Critic.Critique) (critics : List String)
    (steps : List (String × Option String)) (hnd : critics.Nodup)
    (hsteps : ∀ s ∈ steps, s.1 ∈ critics) :
    (Critic.runEvaluation parse steps Critic.freshRow).confidence ≤
      (9/10 : ℚ) * critics.length := by
  have h0 : (Critic.freshRow).confidence ≤
      (9/10 : ℚ) * Critic.parsableStoredCount parse critics
        Critic.freshRow := by
    simp [Critic.freshRow]
  have h := critic_run_invariant parse critics hnd steps Critic.freshRow
    hsteps h0
  refine h.trans ?_
  have hle : (Critic.parsableStoredCount parse critics
      (Critic.runEvaluation parse steps Critic.freshRow) : ℚ) ≤
      (critics.length : ℚ) := by
    exact_mod_cast List.countP_le_length _
  nlinarith [hle]

/-- Witness for C7: one configured critic evaluated twice with a parsable
`is_valid = true` response; the bound `0.9 × 1` holds (the second run is
skipped by the stored-critique guard). -/
theorem c7_confidence_bounded_by_critics_witness :
    (["qwen3-critic"] : List String).Nodup ∧
    (∀ s ∈ [("qwen3-critic", some "VALID"), ("qwen3-critic", some "VALID")],
      (s : String × Option String).1 ∈ (["qwen3-critic"] : List String)) ∧
    (Critic.runEvaluation
        (fun s => if s = "VALID" then some (Critic.Critique.mk true s)
          else none)
        [("qwen3-critic", some "VALID"), ("qwen3-critic", some "VALID")]
        Critic.freshRow).confidence ≤
      (9/10 : ℚ) * ([("qwen3-critic" : String)]).length ∧
    (Critic.runEvaluation
        (fun s => if s = "VALID" then some (Critic.Critique.mk true s)
          else none)
        [("qwen3-critic", some "VALID"), ("qwen3-critic", some "VALID")]
        Critic.freshRow).confidence = (9/10 : ℚ) :=
  ⟨by decide, by decide,
   c7_confidence_bounded_by_critics
     (fun s => if s = "VALID" then some (Critic.Critique.mk true s) else none)
     ["qwen3-critic"]
     [("qwen3-critic", some "VALID"), ("qwen3-critic", some "VALID")]
     (by decide) (by decide),
   by
     norm_num [Critic.runEvaluation, Critic.evaluateIssueRowStep,
       Critic.storedCritiqueParses, Critic.lookupStored,
       Critic.storeResponse, Critic.freshRow, List.find?]⟩

theorem blocks_step_mappings_monotone (hashFn : String → String)
    (ctx : String → Option String) (sourceId : String) (db : Blocks.BlockDB)
    (b : Blocks.Block) (m : Blocks.BlockSourceMapping)
    (hm : m ∈ db.mappings) :
    m ∈ (Blocks.processBlockStep hashFn ctx sourceId db b).1.mappings := by
  cases hfind : db.kblocks.find? (fun kb =>
      kb.hash = hashFn (Blocks.kbHashInput b.name b.content (ctx b.name))) with
  | none =>
    simp only [Blocks.processBlockStep, hfind]
    split <;> simp [hm]
  | some kb =>
    simp only [Blocks.processBlockStep, hfind]
    split <;> simp [hm]

theorem blocks_step_has_mapping (hashFn : String → String)
    (ctx : String → Option String) (sourceId : String) (db : Blocks.BlockDB)
    (b : Blocks.Block) :
    ∃ m ∈ (Blocks.processBlockStep hashFn ctx sourceId db b).1.mappings,
      m.blockId = (Blocks.processBlockStep hashFn ctx sourceId db b).2.id ∧
      m.sourceId = sourceId := by
  cases hfind : db.kblocks.find? (fun kb =>
      kb.hash = hashFn (Blocks.kbHashInput b.name b.content (ctx b.name))) with
  | none =>
    simp only [Blocks.processBlockStep, hfind]
    split
    case isTrue h =>
      obtain ⟨m, hm, hp⟩ := List.any_eq_true.mp h
      simp only [Bool.and_eq_true, decide_eq_true_eq] at hp
      exact ⟨m, hm, hp.1, hp.2⟩
    case isFalse h =>
      refine ⟨Blocks.BlockSourceMapping.mk db.nextId sourceId b.position,
        ?_, rfl, rfl⟩
      simp
  | some kb =>
    simp only [Blocks.processBlockStep, hfind]
    split
    case isTrue h =>
      obtain ⟨m, hm, hp⟩ := List.any_eq_true.mp h
      simp only [Bool.and_eq_true, decide_eq_true_eq] at hp
      exact ⟨m, hm, hp.1, hp.2⟩
    case isFalse h =>
      refine ⟨Blocks.BlockSourceMapping.mk kb.id sourceId b.position,
        ?_, rfl, rfl⟩
      simp

theorem blocks_loop_mappings_monotone (hashFn : String → String)
    (ctx : String → Option String) (sourceId : String) :
    ∀ (blocks : List Blocks.Block) (db : Blocks.BlockDB)
      (m : Blocks.BlockSourceMapping), m ∈ db.mappings →
      m ∈ (Blocks.processBlocksLoop hashFn ctx sourceId blocks db).1.mappings
  | [], db, m, hm => hm
  | b :: rest, db, m, hm => by
    simp only [Blocks.processBlocksLoop]
    exact blocks_loop_mappings_monotone hashFn ctx sourceId rest _ m
      (blocks_step_mappings_monotone hashFn ctx sourceId db b m hm)

theorem blocks_loop_characterization (hashFn : String → String)
    (ctx : String → Option String) (sourceId : String) :
    ∀ (blocks : List Blocks.Block) (db : Blocks.BlockDB),
      (Blocks.processBlocksLoop hashFn ctx sourceId blocks db).2.length =
        blocks.length ∧
      ∀ kb ∈ (Blocks.processBlocksLoop hashFn ctx sourceId blocks db).2,
        ∃ m ∈ (Blocks.processBlocksLoop hashFn ctx sourceId
            blocks db).1.mappings,
          m.blockId = kb.id ∧ m.sourceId = sourceId
  | [], db => by simp [Blocks.processBlocksLoop]
  | b :: rest, db => by
    simp only [Blocks.processBlocksLoop]
    obtain ⟨hlen, hmap⟩ := blocks_loop_characterization hashFn ctx sourceId
      rest (Blocks.processBlockStep hashFn ctx sourceId db b).1
    refine ⟨by simpa using hlen, ?_⟩
    intro kb hkb
    rcases List.mem_cons.mp hkb with rfl | hkb2
    · obtain ⟨m, hm, h1, h2⟩ :=
        blocks_step_has_mapping hashFn ctx sourceId db b
      exact ⟨m, blocks_loop_mappings_monotone hashFn ctx sourceId rest _ m
        hm, h1, h2⟩
    · exact hmap kb hkb2

theorem blocks_parsedBlocks_ne_nil (src : Blocks.SourceRow)
    (parserRes : Except String (String × List Blocks.Block)) :
    (Blocks.parsedBlocks src parserRes).2 ≠ [] := by
  cases parserRes with
  | error e => simp [Blocks.parsedBlocks]
  | ok v =>
    obtain ⟨n, bs⟩ := v
    cases bs <;> simp [Blocks.parsedBlocks]

/-- C10: for every source whose effective content is non-empty,
`split_knowledge_blocks` raises no parser exception and returns at least one
block, each returned block being linked to the source by a
`BlockSourceMapping` row; when no blocks exist yet for the source, one block
per parsed block is returned, and both on parser failure and on a parser
returning zero blocks the parse stage yields the single fallback block
holding the full document content at position 1. -/
theorem c10_split_blocks_fallback (hashFn : String → String)
    (ctx : String → Option String) (db : Blocks.BlockDB) (sourceId : String)
    (parserRes : Except String (String × List Blocks.Block))
    (src : Blocks.SourceRow)
    (hsrc : db.sources.find? (fun s => s.id = sourceId) = some src)
    (hne : src.effectiveContent ≠ "") :
    ∃ db2 created,
      Blocks.splitKnowledgeBlocks hashFn ctx true db sourceId parserRes =
        .ok (db2, created) ∧
      0 < created.length ∧
      (∀ kb ∈ created, ∃ m ∈ db2.mappings,
        m.blockId = kb.id ∧ m.sourceId = sourceId) ∧
      (Blocks.existingBlocksFor db sourceId = [] →
        created.length = (Blocks.parsedBlocks src parserRes).2.length) ∧
      (∀ e, parserRes = .error e →
        (Blocks.parsedBlocks src parserRes).2 =
          [⟨src.name, src.effectiveContent, 1⟩]) ∧
      (∀ n, parserRes = .ok (n, []) →
        (Blocks.parsedBlocks src parserRes).2 =
          [⟨n, src.effectiveContent, 1⟩]) := by
  have hc5 : ∀ e, parserRes = .error e →
      (Blocks.parsedBlocks src parserRes).2 =
        [⟨src.name, src.effectiveContent, 1⟩] := by
    intro e he
    subst he
    simp [Blocks.parsedBlocks]
  have hc6 : ∀ n, parserRes = .ok (n, []) →
      (Blocks.parsedBlocks src parserRes).2 =
        [⟨n, src.effectiveContent, 1⟩] := by
    intro n hn
    subst hn
    simp [Blocks.parsedBlocks]
  by_cases hex : Blocks.existingBlocksFor db sourceId = []
  · refine ⟨(Blocks.processBlocksLoop hashFn ctx sourceId
        (Blocks.parsedBlocks src parserRes).2 db).1,
      (Blocks.processBlocksLoop hashFn ctx sourceId
        (Blocks.parsedBlocks src parserRes).2 db).2, ?_, ?_, ?_, ?_, hc5, hc6⟩
    · simp only [Blocks.splitKnowledgeBlocks, hsrc, hex]
      simp [hne]
    · obtain ⟨hlen, _⟩ := blocks_loop_characterization hashFn ctx sourceId
        (Blocks.parsedBlocks src parserRes).2 db
      rw [hlen]
      exact List.length_pos.mpr (blocks_parsedBlocks_ne_nil src parserRes)
    · exact (blocks_loop_characterization hashFn ctx sourceId
        (Blocks.parsedBlocks src parserRes).2 db).2
    · intro _
      exact (blocks_loop_characterization hashFn ctx sourceId
        (Blocks.parsedBlocks src parserRes).2 db).1
  · refine ⟨db, Blocks.existingBlocksFor db sourceId, ?_, ?_, ?_, ?_,
      hc5, hc6⟩
    · simp only [Blocks.splitKnowledgeBlocks, hsrc]
      simp [hex]
    · exact List.length_pos.mpr hex
    · intro kb hkb
      have hf := List.mem_filter.mp hkb
      obtain ⟨m, hm, hp⟩ := List.any_eq_true.mp hf.2
      simp only [Bool.and_eq_true, decide_eq_true_eq] at hp
      exact ⟨m, hm, hp.1, hp.2⟩
    · intro h
      exact absurd h hex

/-- Witness for C10: a source with content and a crashing parser yields one
fallback block with a mapping row. -/
theorem c10_split_blocks_fallback_witness :
    (Blocks.BlockDB.mk [⟨"s1", "doc", "hello world"⟩] [] [] 0).sources.find?
        (fun s => s.id = "s1") = some ⟨"s1", "doc", "hello world"⟩ ∧
    ("hello world" : String) ≠ "" ∧
    (∃ db2 created,
      Blocks.splitKnowledgeBlocks (fun s => s) (fun _ => none) true
          (Blocks.BlockDB.mk [⟨"s1", "doc", "hello world"⟩] [] [] 0) "s1"
          (.error "parse crash") =
        .ok (db2, created) ∧
      0 < created.length ∧
      (∀ kb ∈ created, ∃ m ∈ db2.mappings,
        m.blockId = kb.id ∧ m.sourceId = "s1") ∧
      (Blocks.existingBlocksFor
          (Blocks.BlockDB.mk [⟨"s1", "doc", "hello world"⟩] [] [] 0) "s1" =
          [] →
        created.length =
          (Blocks.parsedBlocks ⟨"s1", "doc", "hello world"⟩
            (.error "parse crash")).2.length) ∧
      (∀ e, (.error "parse crash" :
          Except String (String × List Blocks.Block)) = .error e →
        (Blocks.parsedBlocks ⟨"s1", "doc", "hello world"⟩
          (.error "parse crash")).2 = [⟨"doc", "hello world", 1⟩]) ∧
      (∀ n, (.error "parse crash" :
          Except String (String × List Blocks.Block)) = .ok (n, []) →
        (Blocks.parsedBlocks ⟨"s1", "doc", "hello world"⟩
          (.error "parse crash")).2 = [⟨n, "hello world", 1⟩])) :=
  ⟨by decide, by decide,
   c10_split_blocks_fallback (fun s => s) (fun _ => none)
     (Blocks.BlockDB.mk [⟨"s1", "doc", "hello world"⟩] [] [] 0) "s1"
     (.error "parse crash") ⟨"s1", "doc", "hello world"⟩ (by decide)
     (by decide)⟩

/-- Witness for C8: with an empty loaded issue list, stage 1 performs a
detection run. -/
theorem c8_detection_gating_witness :
    (Engine.optimizeGraphStage1 (9/10 : ℚ) []
        [Engine.Issue.mk "redundancy_entity" 0 false 0]).2 = true :=
  (c8_detection_gating (9/10 : ℚ) []
    [Engine.Issue.mk "redundancy_entity" 0 false 0]).mpr (Or.inl rfl)
